import Mathlib

/-! Brothers Lodge — verification of the room/tenant CRUD service.

Shallow embedding of the business logic of the `brothers-lodge` property
management application: the validation helpers and Aadhar display formatting
(`src/app/tenants/page.tsx`), the JS `Date.setMonth` eleven-month period
computation (`src/lib` utils / room `PATCH` handler), the CRUD request
handlers for rooms and tenants, the client-side room display comparator
(`src/app/tenants/table/page.tsx`), and JavaScript `parseInt` id parsing.

Machine integers do not occur (amounts and ids are unbounded JS numbers used
as integers), so `Int`/`Nat` are used directly.  The relational store is a
record of lists; Prisma client calls are modelled by their documented
effects (`@updatedAt` bumping on client `update`, foreign-key enforcement on
`create`), while the raw SQL used by the room `PATCH` handler is modelled as
the literal column assignments it performs.
-/

namespace BrothersLodge

/-! ## JS regex character classes

`\d` matches the ASCII digits; `Char.isDigit` is exactly that test.
`\s` matches whitespace; only the characters below can reach the strings
handled here (the formatter inserts only `' '`). -/

def isSpaceChar (c : Char) : Bool :=
  c == ' ' || c == '\t' || c == '\n' || c == '\r' || c == '\x0b' || c == '\x0c'

theorem digit_not_space (c : Char) (h : c.isDigit = true) : isSpaceChar c = false := by
  revert h
  unfold isSpaceChar
  by_cases h1 : c = ' ' <;> by_cases h2 : c = '\t' <;> by_cases h3 : c = '\n' <;>
    by_cases h4 : c = '\r' <;> by_cases h5 : c = '\x0b' <;> by_cases h6 : c = '\x0c' <;>
    subst_vars <;> simp_all

/-! ## Aadhar number display formatting — `src/app/tenants/page.tsx` 359..375

`formatAadharNumber` strips non-digits, then the loop
`for (let i = 0; i < cleanedValue.length && i < 12; i += 4)` pushes
`cleanedValue.substring(i, i + 4)`; finally `parts.join(" ")`.
`unformatAadharNumber` is `value.replace(/\s/g, "")`. -/

def aadharChunks (cs : List Char) (i : Nat) : List (List Char) :=
  if h : i < cs.length ∧ i < 12 then
    (cs.drop i).take 4 :: aadharChunks cs (i + 4)
  else
    []
termination_by 12 - i
decreasing_by omega

def joinSpace : List (List Char) → List Char
  | [] => []
  | [p] => p
  | p :: q :: ps => p ++ ' ' :: joinSpace (q :: ps)

def formatAadharNumber (s : String) : String :=
  ⟨joinSpace (aadharChunks (s.data.filter Char.isDigit) 0)⟩

def unformatAadharNumber (s : String) : String :=
  ⟨s.data.filter (fun c => !isSpaceChar c)⟩

/-! ## Client-side format validators — `src/app/tenants/page.tsx` 378..393 -/

def isValidPhoneNumber (s : String) : Bool :=
  (s.data.filter Char.isDigit).length == 10

def isValidAadharNumber (s : String) : Bool :=
  (s.data.filter Char.isDigit).length == 12

def isValidPincode (s : String) : Bool :=
  (s.data.filter Char.isDigit).length == 6

/-- Server-side regex `/^\d{n}$/` used by the tenant `PATCH` handler. -/
def exactDigits (n : Nat) (s : String) : Bool :=
  s.data.length == n && s.data.all Char.isDigit

/-! ## JavaScript dates

A JS `Date` as used by the service carries a calendar day (the handlers only
ever build dates from `YYYY-MM-DD` strings, so the time component is always
midnight UTC and is omitted).  `month` follows the JS 0..11 convention. -/

structure JSDate where
  year : Int
  month : Nat
  day : Nat
deriving DecidableEq, Repr

def isLeapYear (y : Int) : Bool :=
  y % 4 == 0 && (y % 100 != 0 || y % 400 == 0)

def daysInMonth (y : Int) (m : Nat) : Nat :=
  match m with
  | 1 => if isLeapYear y then 29 else 28
  | 3 | 5 | 8 | 10 => 30
  | _ => 31

theorem daysInMonth_pos (y : Int) (m : Nat) : 0 < daysInMonth y m := by
  unfold daysInMonth
  split <;> first | (split <;> omega) | omega

/-- ECMAScript `MakeDay` normalisation of an overflowing day-of-month:
a day count larger than the target month rolls into the following months.
The recursion is driven by a fuel argument so that the definition reduces in
the kernel; each step removes at least 28 days, so fuel `d` is never
exhausted for the calendar days (`d ≥ 1`) that occur. -/
def rollDayAux : Nat → Int → Nat → Nat → JSDate
  | 0, y, m, d => ⟨y, m, d⟩
  | fuel + 1, y, m, d =>
    if daysInMonth y m < d then
      if m == 11 then rollDayAux fuel (y + 1) 0 (d - daysInMonth y m)
      else rollDayAux fuel y (m + 1) (d - daysInMonth y m)
    else ⟨y, m, d⟩

def rollDay (y : Int) (m : Nat) (d : Nat) : JSDate :=
  rollDayAux d y m d

/-- Models `date.setMonth(date.getMonth() + months)` alias `addMonths` from the shared
date utilities (`src/lib/utils.ts` 87..91): the month index is normalised
modulo 12 into the year, the day-of-month is kept and rolled over when the
target month is shorter. -/
def addMonths (dt : JSDate) (months : Nat) : JSDate :=
  let t := dt.month + months
  rollDay (dt.year + (t / 12 : Nat)) (t % 12) dt.day

/-- Models `new Date(s)` on the `YYYY-MM-DD` strings produced by the client forms
(the only shape that reaches the handlers; the client guards submissions
with `/^\d{4}-\d{2}-\d{2}$/`).  Out-of-range months or days give an invalid
date (`NaN` time value), as do strings of any other shape. -/
def parseDateJS (s : String) : Option JSDate :=
  match s.data with
  | [a, b, c, d, h1, e, f, h2, g, k] =>
    if a.isDigit && b.isDigit && c.isDigit && d.isDigit && h1 == '-' &&
        e.isDigit && f.isDigit && h2 == '-' && g.isDigit && k.isDigit then
      let dv : Char → Nat := fun ch => ch.toNat - 48
      let y : Int := ((1000 * dv a + 100 * dv b + 10 * dv c + dv d : Nat) : Int)
      let mo := 10 * dv e + dv f
      let dy := 10 * dv g + dv k
      if 1 ≤ mo && mo ≤ 12 && 1 ≤ dy && dy ≤ daysInMonth y (mo - 1) then
        some ⟨y, mo - 1, dy⟩
      else none
    else none
  | _ => none

example : parseDateJS "2024-01-15" = some ⟨2024, 0, 15⟩ := by decide
example : addMonths ⟨2024, 0, 15⟩ 11 = ⟨2024, 11, 15⟩ := by decide

/-! ### Round-trip of the Aadhar display formatting -/

theorem joinSpace_filter :
    ∀ ps : List (List Char), (∀ p ∈ ps, ∀ c ∈ p, isSpaceChar c = false) →
      (joinSpace ps).filter (fun c => !isSpaceChar c) = ps.flatten
  | [], _ => by simp [joinSpace]
  | [p], hp => by
    simp only [joinSpace, List.flatten_cons, List.flatten_nil, List.append_nil]
    exact List.filter_eq_self.mpr (fun a ha => by simp [hp p (by simp) a ha])
  | p :: q :: qs, hp => by
    have ih := joinSpace_filter (q :: qs) (fun r hr => hp r (List.mem_cons_of_mem _ hr))
    simp only [joinSpace, List.filter_append, List.flatten_cons]
    rw [show (' ' :: joinSpace (q :: qs)).filter (fun c => !isSpaceChar c) =
        (joinSpace (q :: qs)).filter (fun c => !isSpaceChar c) from by
      simp [List.filter_cons, isSpaceChar]]
    rw [ih]
    simp only [List.flatten_cons]
    congr 1
    exact List.filter_eq_self.mpr (fun a ha => by simp [hp p (by simp) a ha])

theorem aadharChunks_flatten (cs : List Char) (hlen : cs.length ≤ 12) :
    ∀ k i, 12 - i ≤ k → (aadharChunks cs i).flatten = cs.drop i := by
  intro k
  induction k with
  | zero =>
    intro i hi
    rw [aadharChunks, dif_neg (by omega)]
    simp [List.drop_eq_nil_of_le (by omega : cs.length ≤ i)]
  | succ k ih =>
    intro i hi
    rw [aadharChunks]
    by_cases h : i < cs.length ∧ i < 12
    · rw [dif_pos h]
      rw [List.flatten_cons, ih (i + 4) (by omega)]
      rw [show cs.drop (i + 4) = (cs.drop i).drop 4 from (List.drop_drop 4 i cs).symm]
      exact List.take_append_drop 4 (cs.drop i)
    · rw [dif_neg h]
      have : cs.length ≤ i := by omega
      simp [List.drop_eq_nil_of_le this]

theorem aadharChunks_subset (cs : List Char) :
    ∀ k i, 12 - i ≤ k → ∀ p ∈ aadharChunks cs i, ∀ c ∈ p, c ∈ cs := by
  intro k
  induction k with
  | zero =>
    intro i hi p hp
    rw [aadharChunks, dif_neg (by omega)] at hp
    simp at hp
  | succ k ih =>
    intro i hi p hp c hc
    rw [aadharChunks] at hp
    by_cases h : i < cs.length ∧ i < 12
    · rw [dif_pos h] at hp
      rcases List.mem_cons.mp hp with rfl | hmem
      · exact List.drop_subset i cs (List.take_subset 4 (cs.drop i) hc)
      · exact ih (i + 4) (by omega) p hmem c hc
    · rw [dif_neg h] at hp
      simp at hp

/-- Claim C7 — For every digit string `d` of length at most 12,
`unformatAadharNumber (formatAadharNumber d) = d`: the display formatting
that groups the digits in blocks of four separated by spaces is undone
exactly by stripping whitespace. -/
theorem C7_aadhar_roundtrip (s : String)
    (hd : ∀ c ∈ s.data, c.isDigit = true) (hl : s.length ≤ 12) :
    unformatAadharNumber (formatAadharNumber s) = s := by
  have hlen : s.data.length ≤ 12 := hl
  have hfilter : s.data.filter Char.isDigit = s.data := List.filter_eq_self.mpr hd
  unfold formatAadharNumber unformatAadharNumber
  show String.mk ((joinSpace (aadharChunks (s.data.filter Char.isDigit) 0)).filter
      (fun c => !isSpaceChar c)) = s
  rw [hfilter]
  rw [joinSpace_filter _ (fun p hp c hc =>
    digit_not_space c (hd c (aadharChunks_subset s.data 12 0 (by omega) p hp c hc)))]
  rw [aadharChunks_flatten s.data hlen 12 0 (by omega)]
  cases s
  rfl

/-- Witness for C7 at the concrete 12-digit string `"123456789012"`. -/
theorem C7_witness :
    (∀ c ∈ ("123456789012" : String).data, c.isDigit = true) ∧
      unformatAadharNumber (formatAadharNumber "123456789012") = "123456789012" :=
  ⟨by decide, C7_aadhar_roundtrip "123456789012" (by decide) (by decide)⟩

/-! ## Data model — `prisma/schema.prisma`

Timestamps are abstract instants (`Nat`).  `createdAt`/`updatedAt` carry
Prisma's documented semantics: the database defaults both on insert, and the
Prisma client sets `updatedAt := now` on every client-side `update`; raw SQL
statements touch exactly the columns they name. -/

structure Room where
  id : Int
  name : String
  rentAmount : Int
  periodFrom : JSDate
  periodTo : JSDate
  createdAt : Nat
  updatedAt : Nat
deriving DecidableEq, Repr

structure Tenant where
  id : Int
  name : String
  fatherName : String
  villageName : String
  tehsil : String
  policeStation : String
  district : String
  pincode : String
  state : String
  email : Option String
  aadharNumber : String
  phoneNumber : String
  fatherPhoneNumber : String
  roomId : Int
  createdAt : Nat
  updatedAt : Nat
deriving DecidableEq, Repr

/-- The relational store: the `rooms` and `tenants` tables plus the tenant
autoincrement counter. -/
structure Store where
  rooms : List Room
  tenants : List Tenant
  nextTenantId : Int
deriving DecidableEq, Repr

def Store.findRoom (st : Store) (rid : Int) : Option Room :=
  st.rooms.find? (fun r => r.id == rid)

def Store.roomTenants (st : Store) (rid : Int) : List Tenant :=
  st.tenants.filter (fun t => t.roomId == rid)

/-! ## JavaScript `parseInt`

Route ids arrive as raw strings and every by-id handler begins with
`const id = parseInt(params.id); if (isNaN(id)) return 400`.
`parseIntJS s = none` models a `NaN` result.  Leading whitespace is skipped,
an optional sign and an optional `0x`/`0X` hexadecimal prefix are consumed,
then the longest leading run of digits of the radix is converted; trailing
garbage is ignored and an empty digit run gives `NaN`. -/

def hexDigit (c : Char) : Bool :=
  c.isDigit || ('a' ≤ c && c ≤ 'f') || ('A' ≤ c && c ≤ 'F')

def hexDigitVal (c : Char) : Nat :=
  if c.isDigit then c.toNat - 48
  else if 'a' ≤ c && c ≤ 'f' then c.toNat - 87
  else c.toNat - 55

def parseIntJS (s : String) : Option Int :=
  let cs := s.data.dropWhile (fun c => isSpaceChar c)
  let signAndRest : Int × List Char :=
    match cs with
    | '-' :: rest => (-1, rest)
    | '+' :: rest => (1, rest)
    | _ => (1, cs)
  let radixAndRest : Nat × List Char :=
    match signAndRest.2 with
    | '0' :: 'x' :: rest => (16, rest)
    | '0' :: 'X' :: rest => (16, rest)
    | _ => (10, signAndRest.2)
  let ds := radixAndRest.2.takeWhile
    (fun c => if radixAndRest.1 == 16 then hexDigit c else c.isDigit)
  if ds.isEmpty then none
  else some (signAndRest.1 *
    (ds.foldl (fun acc c => acc * (radixAndRest.1 : Int) + (hexDigitVal c : Int)) 0))

example : parseIntJS "7abc" = some 7 := by decide
example : parseIntJS "abc" = none := by decide
example : parseIntJS "12" = some 12 := by decide

/-! ## Tenant request bodies and validation

A JSON request body for tenant creation/update.  Absent string fields arrive
as the falsy empty string (the client always sends every key); `roomId` is
only read by the create handler. -/

structure TenantBody where
  name : String
  fatherName : String
  villageName : String
  tehsil : String
  policeStation : String
  district : String
  pincode : String
  state : String
  email : Option String
  aadharNumber : String
  phoneNumber : String
  fatherPhoneNumber : String
  roomId : Int
deriving DecidableEq, Repr

/-- The `requiredFields` array of the tenant `PATCH` handler
(`src/app` tenant id route, lines 73..85), in source order, paired with the
value the body carries for that field. -/
def requiredList (b : TenantBody) : List (String × String) :=
  [("name", b.name), ("fatherName", b.fatherName), ("villageName", b.villageName),
   ("tehsil", b.tehsil), ("policeStation", b.policeStation), ("district", b.district),
   ("pincode", b.pincode), ("state", b.state), ("phoneNumber", b.phoneNumber),
   ("fatherPhoneNumber", b.fatherPhoneNumber), ("aadharNumber", b.aadharNumber)]

/-- Models `for (const field of requiredFields) if (!body[field]) return 400` —
the first falsy (empty) required field, if any. -/
def firstMissing (b : TenantBody) : Option String :=
  ((requiredList b).find? (fun p => p.2.isEmpty)).map (fun p => p.1)

/-! ## Global tenant listing — `GET /api/tenants` -/

/-- Models `prisma.tenant.findMany` with `orderBy createdAt desc` and the room join.
The database returns the rows sorted by the key; a concrete sort realises
that contract. -/
def tenantsGET (st : Store) : List Tenant :=
  st.tenants.insertionSort (fun a b => b.createdAt ≤ a.createdAt)

/-! ## Room-scoped tenant listing — `GET /api/rooms/[id]/tenants`

Embeds the live handler (src/unnamed/part_000): the same route file also
exists in the repository in an older revision that lacks the `DELETE`
handler the pages call and orders by `createdAt desc`; the revision with
`orderBy: { name: "asc" }` is the one the application serves. -/

inductive ListRes where
  | invalidId
  | ok (tenants : List Tenant)
deriving DecidableEq, Repr

/-- The database's `name asc` collation, modelled as lexicographic order on
the code points of the name. -/
def nameKey (t : Tenant) : List Nat :=
  t.name.data.map Char.toNat

def roomTenantsGET (idStr : String) (st : Store) : ListRes :=
  match parseIntJS idStr with
  | none => .invalidId
  | some roomId =>
    .ok ((st.tenants.filter (fun t => t.roomId == roomId)).insertionSort
      (fun a b => nameKey a ≤ nameKey b))

/-! ## Room deletion — `DELETE /api/rooms/[id]` (src/unnamed/part_001, 362..405) -/

inductive RoomDeleteRes where
  | invalidId
  | notFound
  | hasTenants
  | deleted
deriving DecidableEq, Repr

/-- HTTP status of each outcome: `hasTenants` is the
`"Cannot delete room with active tenants"` conflict response (status 400). -/
def roomDeleteStatus : RoomDeleteRes → Nat
  | .invalidId => 400
  | .notFound => 404
  | .hasTenants => 400
  | .deleted => 200

def roomDELETE (idStr : String) (st : Store) : RoomDeleteRes × Store :=
  match parseIntJS idStr with
  | none => (.invalidId, st)
  | some roomId =>
    match st.rooms.find? (fun r => r.id == roomId) with
    | none => (.notFound, st)
    | some _ =>
      if (st.tenants.filter (fun t => t.roomId == roomId)).length > 0 then
        (.hasTenants, st)
      else
        (.deleted, { st with rooms := st.rooms.filter (fun r => !(r.id == roomId)) })

/-! ## Room update — `PATCH /api/rooms/[id]` (src/unnamed/part_001, 251..360)

The body is `{ rentAmount, periodFrom, periodTo }`, each optional.
`rentAmount` is validated when present (`isNaN(rentAmount) || rentAmount < 0`;
a JSON number is never `NaN`, so the check reduces to negativity).
`periodFrom`/`periodTo` are tested with JS truthiness — `undefined`, `null`
and `""` all count as absent.  The update itself is a raw SQL `UPDATE` that
sets exactly the columns gathered in `updateFields`; it does not touch
`updated_at` (Prisma's `@updatedAt` only fires on Prisma-client mutations). -/

structure RoomPatchBody where
  rentAmount : Option Int
  periodFrom : Option String
  periodTo : Option String
deriving DecidableEq, Repr

/-- JS truthiness of an optional string: only `undefined`/`null`/`""` are falsy. -/
def truthy : Option String → Bool
  | none => false
  | some s => !s.isEmpty

/-- Models `rentAmount !== undefined && (isNaN(rentAmount) || rentAmount < 0)`. -/
def rentBad : Option Int → Bool
  | none => false
  | some v => v < 0

inductive RoomPatchRes where
  | invalidId
  | invalidRent
  | invalidFrom
  | invalidTo
  | notFound
  | ok (room : Option Room)
deriving DecidableEq, Repr

/-- The row update performed by the raw SQL statement: each supplied column
is assigned, every other column (name, timestamps) is left as it was. -/
def applyRoomUpdate (rent : Option Int) (pf pt : Option JSDate) (r : Room) : Room :=
  { r with
    rentAmount := rent.getD r.rentAmount
    periodFrom := pf.getD r.periodFrom
    periodTo := pt.getD r.periodTo }

/-- The per-row effect of the raw SQL `UPDATE ... WHERE id = roomId` on the
rooms table: the matching row gets the assignments, others are untouched. -/
def roomUpdateFn (rid : Int) (rent : Option Int) (pf pt : Option JSDate)
    (r : Room) : Room :=
  if r.id == rid then applyRoomUpdate rent pf pt r else r

def roomPATCH (idStr : String) (body : RoomPatchBody) (st : Store) :
    RoomPatchRes × Store :=
  match parseIntJS idStr with
  | none => (.invalidId, st)
  | some roomId =>
    if rentBad body.rentAmount then (.invalidRent, st)
    else if truthy body.periodFrom && (parseDateJS (body.periodFrom.getD "")).isNone then
      (.invalidFrom, st)
    else if truthy body.periodTo && (parseDateJS (body.periodTo.getD "")).isNone then
      (.invalidTo, st)
    else
      let periodFromDate : Option JSDate :=
        if truthy body.periodFrom then parseDateJS (body.periodFrom.getD "") else none
      let periodToDate : Option JSDate :=
        if truthy body.periodTo then parseDateJS (body.periodTo.getD "")
        else if truthy body.periodFrom then
          (parseDateJS (body.periodFrom.getD "")).map (fun d => addMonths d 11)
        else none
      match st.rooms.find? (fun r => r.id == roomId) with
      | none => (.notFound, st)
      | some _ =>
        let fn := roomUpdateFn roomId body.rentAmount periodFromDate periodToDate
        let st1 : Store := { st with rooms := st.rooms.map fn }
        (.ok (st1.rooms.find? (fun r => r.id == roomId)), st1)

/-! ## Tenant creation — `POST /api/tenants`

Embeds the post-migration handler (`src/app/api/rooms/route.ts` 243..300,
the revision matching the final schema, in which rent/period live on the
room).  The handler performs no validation of its own: it hands the body
straight to `prisma.tenant.create`.  The store enforces the `roomId`
foreign key atomically; a violation surfaces as Prisma error `P2003`, which
the handler maps to the "The specified room does not exist" 400 response.
`P2002` (unique-constraint violation) is mapped to a 409 "duplicate"
response, kept here for the error taxonomy even though the final schema
declares no unique constraint on tenants. -/

inductive TenantPostRes where
  | created (t : Tenant)
  | duplicate
  | roomMissing
deriving DecidableEq, Repr

def tenantPostStatus : TenantPostRes → Nat
  | .created _ => 201
  | .duplicate => 409
  | .roomMissing => 400

/-- The row `prisma.tenant.create` inserts: the body's fields verbatim,
with the autoincremented id and defaulted timestamps. -/
def newTenant (b : TenantBody) (st : Store) (now : Nat) : Tenant :=
  { id := st.nextTenantId, name := b.name, fatherName := b.fatherName,
    villageName := b.villageName, tehsil := b.tehsil,
    policeStation := b.policeStation, district := b.district,
    pincode := b.pincode, state := b.state, email := b.email,
    aadharNumber := b.aadharNumber, phoneNumber := b.phoneNumber,
    fatherPhoneNumber := b.fatherPhoneNumber, roomId := b.roomId,
    createdAt := now, updatedAt := now }

def tenantsPOST (b : TenantBody) (st : Store) (now : Nat) : TenantPostRes × Store :=
  if (st.rooms.find? (fun r => r.id == b.roomId)).isSome then
    (.created (newTenant b st now),
     { st with tenants := st.tenants ++ [newTenant b st now],
               nextTenantId := st.nextTenantId + 1 })
  else
    (.roomMissing, st)

/-! ## Tenant update — `PATCH /api/tenants/[id]`
(`src/app/api/rooms/route.ts` 58..180, the tenant id route)

Full-replace semantics: all required fields are re-validated (presence in
`requiredFields` order, then `/^\d{10}$/` phones, `/^\d{12}$/` Aadhar,
`/^\d{6}$/` pincode) before the existence check and the Prisma-client
`update`, which also bumps `updatedAt`. -/

inductive TenantPatchRes where
  | invalidId
  | missingField (field : String)
  | badPhone (field : String)
  | badAadhar
  | badPincode
  | notFound
  | updated (t : Tenant)
deriving DecidableEq, Repr

/-- The `data` object of the tenant `update` call plus Prisma's `@updatedAt`
bump; `id`, `roomId` and `createdAt` are not part of the update. -/
def applyTenantUpdate (b : TenantBody) (now : Nat) (t : Tenant) : Tenant :=
  { t with
    name := b.name, fatherName := b.fatherName, villageName := b.villageName,
    tehsil := b.tehsil, policeStation := b.policeStation, district := b.district,
    pincode := b.pincode, state := b.state, email := b.email,
    aadharNumber := b.aadharNumber, phoneNumber := b.phoneNumber,
    fatherPhoneNumber := b.fatherPhoneNumber, updatedAt := now }

def tenantPATCH (idStr : String) (b : TenantBody) (st : Store) (now : Nat) :
    TenantPatchRes × Store :=
  match parseIntJS idStr with
  | none => (.invalidId, st)
  | some tid =>
    match firstMissing b with
    | some f => (.missingField f, st)
    | none =>
      if !exactDigits 10 b.phoneNumber then (.badPhone "phoneNumber", st)
      else if !exactDigits 10 b.fatherPhoneNumber then (.badPhone "fatherPhoneNumber", st)
      else if !exactDigits 12 b.aadharNumber then (.badAadhar, st)
      else if !exactDigits 6 b.pincode then (.badPincode, st)
      else
        match st.tenants.find? (fun t => t.id == tid) with
        | none => (.notFound, st)
        | some t0 =>
          (.updated (applyTenantUpdate b now t0),
           { st with tenants := st.tenants.map (fun t =>
               if t.id == tid then applyTenantUpdate b now t else t) })

/-! ## Client-side tenant form validation — `src/app/tenants/page.tsx` 225..265

The submission loop rejects a tenant form whose required fields are not all
present, or whose phone numbers / Aadhar number / pincode fail the
digit-count validators, before any request is sent. -/

inductive ClientErr where
  | missingFields
  | phone
  | fatherPhone
  | aadhar
  | pincode
deriving DecidableEq, Repr

def clientValidateTenant (b : TenantBody) : Option ClientErr :=
  if b.name.isEmpty || b.fatherName.isEmpty || b.villageName.isEmpty ||
      b.tehsil.isEmpty || b.policeStation.isEmpty || b.district.isEmpty ||
      b.pincode.isEmpty || b.state.isEmpty || b.aadharNumber.isEmpty ||
      b.phoneNumber.isEmpty || b.fatherPhoneNumber.isEmpty then
    some .missingFields
  else if !isValidPhoneNumber b.phoneNumber then some .phone
  else if !isValidPhoneNumber b.fatherPhoneNumber then some .fatherPhone
  else if !isValidAadharNumber b.aadharNumber then some .aadhar
  else if !isValidPincode b.pincode then some .pincode
  else none

/-! Spec-side predicates (§4.1 of the specification): all required fields
present (non-empty) and all format invariants satisfied. -/

def requiredPresent (b : TenantBody) : Prop :=
  b.name ≠ "" ∧ b.fatherName ≠ "" ∧ b.villageName ≠ "" ∧ b.tehsil ≠ "" ∧
  b.policeStation ≠ "" ∧ b.district ≠ "" ∧ b.pincode ≠ "" ∧ b.state ≠ "" ∧
  b.phoneNumber ≠ "" ∧ b.fatherPhoneNumber ≠ "" ∧ b.aadharNumber ≠ ""

instance (b : TenantBody) : Decidable (requiredPresent b) := by
  unfold requiredPresent; infer_instance

def formatsOk (b : TenantBody) : Prop :=
  isValidPhoneNumber b.phoneNumber = true ∧
  isValidPhoneNumber b.fatherPhoneNumber = true ∧
  isValidAadharNumber b.aadharNumber = true ∧
  isValidPincode b.pincode = true

instance (b : TenantBody) : Decidable (formatsOk b) := by
  unfold formatsOk; infer_instance

/-! ## Room display comparator — `src/app/tenants/table/page.tsx` 311..322 -/

/-- Models `parseInt(name.replace(/\D/g, "")) || 0`: strip non-digits, parse the
remaining decimal digits, defaulting to 0 when none remain. -/
def roomNameNum (s : String) : Int :=
  let ds := s.data.filter Char.isDigit
  if ds.isEmpty then 0
  else (ds.foldl (fun acc c => acc * 10 + (c.toNat - 48)) 0 : Nat)

def jsStartsWith (s p : String) : Bool :=
  p.data.isPrefixOf s.data

/-- The comparator passed to `roomsWithTenants.sort`: ground floor (`G`)
first, then `F` before `S`, then the numeric suffix. -/
def cmpRooms (a b : String) : Int :=
  if jsStartsWith a "G" && !jsStartsWith b "G" then -1
  else if !jsStartsWith a "G" && jsStartsWith b "G" then 1
  else if jsStartsWith a "F" && jsStartsWith b "S" then -1
  else if jsStartsWith a "S" && jsStartsWith b "F" then 1
  else roomNameNum a - roomNameNum b

/-- Models `Array.prototype.sort` with a comparator: a stable sort placing `a`
before `b` when `cmp a b ≤ 0`. -/
def sortRooms (l : List String) : List String :=
  l.insertionSort (fun a b => cmpRooms a b ≤ 0)

/-! ## Concrete sample data (used by witnesses and counterexamples) -/

def roomA : Room :=
  { id := 1, name := "G1", rentAmount := 1000, periodFrom := ⟨2023, 0, 1⟩,
    periodTo := ⟨2023, 11, 1⟩, createdAt := 10, updatedAt := 20 }

def roomB : Room :=
  { id := 2, name := "F1", rentAmount := 1500, periodFrom := ⟨2023, 0, 1⟩,
    periodTo := ⟨2023, 11, 1⟩, createdAt := 11, updatedAt := 21 }

def tenantT : Tenant :=
  { id := 1, name := "Ravi", fatherName := "Mohan", villageName := "Rampur",
    tehsil := "Sadar", policeStation := "Kotwali", district := "Bhopal",
    pincode := "462001", state := "MP", email := none,
    aadharNumber := "123456789012", phoneNumber := "9876543210",
    fatherPhoneNumber := "9123456780", roomId := 1, createdAt := 5, updatedAt := 5 }

def tenantU : Tenant :=
  { tenantT with id := 2, name := "Amit", createdAt := 9, updatedAt := 9 }

def store1 : Store := { rooms := [roomA, roomB], tenants := [tenantT], nextTenantId := 2 }

def store2 : Store :=
  { rooms := [roomA, roomB], tenants := [tenantT, tenantU], nextTenantId := 3 }

/-- A well-formed tenant-creation body (all required fields present, all
formats valid, `roomId` existing in `store1`). -/
def goodBody : TenantBody :=
  { name := "Ravi", fatherName := "Mohan", villageName := "Rampur",
    tehsil := "Sadar", policeStation := "Kotwali", district := "Bhopal",
    pincode := "462001", state := "MP", email := none,
    aadharNumber := "123456789012", phoneNumber := "9876543210",
    fatherPhoneNumber := "9123456780", roomId := 1 }

/-- A violating body: missing `name`, 3-digit phone, 1-digit Aadhar,
2-digit pincode. -/
def badBody : TenantBody :=
  { goodBody with
    name := ""
    phoneNumber := "123"
    aadharNumber := "1"
    pincode := "12" }

def body2 : RoomPatchBody := { rentAmount := none, periodFrom := some "2024-01-15", periodTo := none }

def body8 : RoomPatchBody := { rentAmount := some 500, periodFrom := none, periodTo := none }

/-! ## C9 — room display comparator on the pinned input -/

/-- Claim C9 — The client-side room display comparator sorts
`["F2","G1","S1","F10","F1"]` into exactly `["G1","F1","F2","F10","S1"]`:
the ground-floor name first, then the first-floor names by numeric suffix,
then the second-floor name.  (Every comparison on this input is strict, so
any correct sort realises `Array.prototype.sort` here.) -/
theorem C9_room_sort :
    sortRooms ["F2", "G1", "S1", "F10", "F1"] = ["G1", "F1", "F2", "F10", "S1"] := by
  decide

/-! ## C3 — deleting an occupied room -/

/-- Claim C3 — For every existing room, `DELETE /rooms/{id}` returns the
conflict response (status 400, "Cannot delete room with active tenants")
and leaves the store — the room and all its tenants — unchanged when the
room owns at least one tenant, and removes exactly the room (tenants
untouched) when it owns none. -/
theorem C3_delete_occupied_room (idStr : String) (rid : Int) (st : Store) (r : Room)
    (hid : parseIntJS idStr = some rid)
    (hr : st.rooms.find? (fun x => x.id == rid) = some r) :
    (st.roomTenants rid ≠ [] → roomDELETE idStr st = (.hasTenants, st)) ∧
    (st.roomTenants rid = [] →
      roomDELETE idStr st =
        (.deleted, { st with rooms := st.rooms.filter (fun x => !(x.id == rid)) })) ∧
    roomDeleteStatus .hasTenants = 400 := by
  refine ⟨?_, ?_, rfl⟩
  · intro hne
    unfold Store.roomTenants at hne
    have hpos : 0 < (st.tenants.filter (fun t => t.roomId == rid)).length :=
      List.length_pos.mpr hne
    unfold roomDELETE
    simp only [hid, hr]
    rw [if_pos hpos]
  · intro heq
    unfold Store.roomTenants at heq
    unfold roomDELETE
    simp only [hid, hr]
    rw [if_neg (by rw [heq]; simp)]

/-- Witness for C3: in `store1`, room 1 owns tenant 1 so its deletion
conflicts and changes nothing; room 2 owns no tenant and is removed. -/
theorem C3_witness :
    (store1.roomTenants 1 ≠ [] ∧ roomDELETE "1" store1 = (.hasTenants, store1)) ∧
    (store1.roomTenants 2 = [] ∧
      roomDELETE "2" store1 =
        (.deleted, { store1 with rooms := store1.rooms.filter (fun x => !(x.id == 2)) })) :=
  ⟨⟨by decide, (C3_delete_occupied_room "1" 1 store1 roomA (by decide) (by decide)).1
      (by decide)⟩,
   ⟨by decide, ((C3_delete_occupied_room "2" 2 store1 roomB (by decide) (by decide)).2).1
      (by decide)⟩⟩

/-! ## C4 — tenant creation against a missing room -/

/-- Claim C4 — A tenant-creation request whose `roomId` references no existing
room gets the room-not-found response (status 400, distinct from the 409
duplicate response) and writes nothing: the store is returned unchanged. -/
theorem C4_create_room_missing (b : TenantBody) (st : Store) (now : Nat)
    (h : st.rooms.find? (fun r => r.id == b.roomId) = none) :
    tenantsPOST b st now = (.roomMissing, st) ∧
    TenantPostRes.roomMissing ≠ TenantPostRes.duplicate ∧
    tenantPostStatus .roomMissing = 400 ∧ tenantPostStatus .duplicate = 409 := by
  refine ⟨?_, by decide, rfl, rfl⟩
  unfold tenantsPOST
  rw [h]
  rfl

/-- Witness for C4: `store1` has no room 99. -/
theorem C4_witness :
    store1.rooms.find? (fun r => r.id == ({ goodBody with roomId := 99 } : TenantBody).roomId) = none ∧
    tenantsPOST { goodBody with roomId := 99 } store1 7 = (.roomMissing, store1) :=
  ⟨by decide, (C4_create_room_missing { goodBody with roomId := 99 } store1 7 (by decide)).1⟩

/-! ## C8 — `updatedAt` under the raw-SQL room update -/

/-- Claim C8 — The room `PATCH` mutates the room through a raw SQL `UPDATE`
that sets only the supplied columns, so `updatedAt` is NOT bumped even
though the schema declares `@updatedAt` (which only fires on Prisma-client
mutations): at the failing input `PATCH /rooms/1 {rentAmount: 500}` on
`store1`, `rentAmount` changes from 1000 to 500 while `updatedAt` stays 20.
The tenant `PATCH`, a Prisma-client `update`, does bump `updatedAt` (5 → 99)
and leaves `createdAt` unchanged. -/
theorem C8_raw_update_keeps_updatedAt :
    roomA.rentAmount = 1000 ∧ roomA.updatedAt = 20 ∧
    ((roomPATCH "1" body8 store1).2.rooms.find? (fun x => x.id == 1)).map
        (fun r => (r.rentAmount, r.createdAt, r.updatedAt)) = some (500, 10, 20) ∧
    ((tenantPATCH "1" goodBody store1 99).2.tenants.find? (fun t => t.id == 1)).map
        (fun t => (t.createdAt, t.updatedAt)) = some (5, 99) := by
  decide

/-! ## Helper lemmas: row updates keyed by id -/

theorem find?_map_pres {α : Type} (f : α → α) (p : α → Bool)
    (h : ∀ x, p (f x) = p x) :
    ∀ l : List α, (l.map f).find? p = (l.find? p).map f := by
  intro l
  induction l with
  | nil => rfl
  | cons x xs ih =>
    simp only [List.map_cons]
    cases hx : p x
    · rw [List.find?_cons_of_neg _ (by rw [h x, hx]; simp),
        List.find?_cons_of_neg _ (by rw [hx]; simp), ih]
    · rw [List.find?_cons_of_pos _ (by rw [h x, hx]),
        List.find?_cons_of_pos _ hx]
      rfl

theorem filter_map_fix {α : Type} (f : α → α) (q : α → Bool)
    (hq : ∀ x, q (f x) = q x) (hfix : ∀ x, q x = false → f x = x) :
    ∀ l : List α, (l.map f).filter (fun x => !q x) = l.filter (fun x => !q x) := by
  intro l
  induction l with
  | nil => rfl
  | cons x xs ih =>
    simp only [List.map_cons, List.filter_cons]
    rw [hq x]
    cases hx : q x
    · rw [hfix x hx]
      simp [ih]
    · simp [ih]

theorem roomUpdateFn_pres_id (rid : Int) (rent : Option Int) (pf pt : Option JSDate)
    (x : Room) : ((roomUpdateFn rid rent pf pt x).id == rid) = (x.id == rid) := by
  unfold roomUpdateFn
  by_cases hx : (x.id == rid) = true
  · rw [if_pos hx]
    exact hx.trans hx.symm
  · rw [if_neg hx]

theorem roomUpdateFn_fix (rid : Int) (rent : Option Int) (pf pt : Option JSDate)
    (x : Room) (hx : (x.id == rid) = false) : roomUpdateFn rid rent pf pt x = x := by
  unfold roomUpdateFn
  rw [hx]
  rfl

/-! ## C2 — `periodTo` derived as `periodFrom + 11 months` -/

/-- Claim C2 — For every room update whose body supplies `periodFrom` (parsing
to date `d`) and no `periodTo`, the room row stored by `PATCH /rooms/{id}`
has `periodTo = addMonths d 11` (the JS `setMonth` computation, rollover
rules included) and `periodFrom = d`. -/
theorem C2_period_eleven_months (idStr : String) (rid : Int) (st : Store)
    (body : RoomPatchBody) (r : Room) (s : String) (d : JSDate)
    (hid : parseIntJS idStr = some rid)
    (hrent : rentBad body.rentAmount = false)
    (hpf : body.periodFrom = some s)
    (hd : parseDateJS s = some d)
    (hpt : body.periodTo = none)
    (hr : st.rooms.find? (fun x => x.id == rid) = some r) :
    ((roomPATCH idStr body st).2.rooms.find? (fun x => x.id == rid)).map Room.periodTo
        = some (addMonths d 11) ∧
    ((roomPATCH idStr body st).2.rooms.find? (fun x => x.id == rid)).map Room.periodFrom
        = some d := by
  have hget : body.periodFrom.getD "" = s := by rw [hpf]; rfl
  have hsne : s.isEmpty = false := by
    cases hE : s.isEmpty
    · rfl
    · have hse : s = "" := (String.isEmpty_iff s).mp hE
      rw [hse] at hd
      simp [parseDateJS] at hd
  have htf : truthy body.periodFrom = true := by
    rw [hpf]
    simp [truthy, hsne]
  have c2 : (truthy body.periodFrom && (parseDateJS (body.periodFrom.getD "")).isNone)
      = false := by
    rw [hget, hd]
    simp
  have c3 : (truthy body.periodTo && (parseDateJS (body.periodTo.getD "")).isNone)
      = false := by
    rw [hpt]
    rfl
  have hpr : (r.id == rid) = true := by
    have := List.find?_some hr
    simpa using this
  have hmain : (roomPATCH idStr body st).2.rooms.find? (fun x => x.id == rid) =
      some (applyRoomUpdate body.rentAmount (some d) (some (addMonths d 11)) r) := by
    obtain ⟨ra, pf, pt⟩ := body
    simp only at hpf hpt hrent
    subst hpf
    subst hpt
    unfold roomPATCH
    simp only [hid]
    simp [truthy, hsne, hrent, hd, hr]
    refine ⟨r, ?_, ?_⟩
    · rw [show ((fun x : Room => x.id == rid) ∘
          roomUpdateFn rid ra (some d) (some (addMonths d 11))) =
            (fun x : Room => x.id == rid) from
        funext (fun x => roomUpdateFn_pres_id rid ra (some d) (some (addMonths d 11)) x)]
      exact hr
    · simp [roomUpdateFn, hpr]
  rw [hmain]
  constructor <;> rfl

def C2concreteDate : JSDate := ⟨2024, 0, 15⟩

/-- Witness for C2 at the spec's pinned example: `periodFrom = 2024-01-15`
with no `periodTo` yields a stored `periodTo` of 2024-12-15 (month index 11,
day 15). -/
theorem C2_witness :
    (parseIntJS "1" = some 1 ∧ rentBad body2.rentAmount = false ∧
     body2.periodFrom = some "2024-01-15" ∧
     parseDateJS "2024-01-15" = some C2concreteDate ∧ body2.periodTo = none ∧
     store1.rooms.find? (fun x => x.id == 1) = some roomA) ∧
    ((roomPATCH "1" body2 store1).2.rooms.find? (fun x => x.id == 1)).map Room.periodTo
        = some (addMonths C2concreteDate 11) ∧
    addMonths C2concreteDate 11 = ⟨2024, 11, 15⟩ :=
  ⟨⟨by decide, by decide, rfl, by decide, rfl, by decide⟩,
   (C2_period_eleven_months "1" 1 store1 body2 roomA "2024-01-15" C2concreteDate
     (by decide) (by decide) rfl (by decide) rfl (by decide)).1,
   by decide⟩

/-! ## C5 — frame conditions of the room update -/

theorem roomUpdateFn_frame (rid : Int) (rent : Option Int) (pf pt : Option JSDate)
    (x : Room) :
    (roomUpdateFn rid rent pf pt x).name = x.name ∧
    (roomUpdateFn rid rent pf pt x).createdAt = x.createdAt ∧
    (roomUpdateFn rid rent pf pt x).updatedAt = x.updatedAt ∧
    (rent = none → (roomUpdateFn rid rent pf pt x).rentAmount = x.rentAmount) ∧
    (pf = none → (roomUpdateFn rid rent pf pt x).periodFrom = x.periodFrom) ∧
    (pt = none → (roomUpdateFn rid rent pf pt x).periodTo = x.periodTo) := by
  unfold roomUpdateFn
  by_cases hx : (x.id == rid) = true
  · rw [if_pos hx]
    refine ⟨rfl, rfl, rfl, ?_, ?_, ?_⟩ <;> rintro rfl <;> rfl
  · rw [if_neg hx]
    exact ⟨rfl, rfl, rfl, fun _ => rfl, fun _ => rfl, fun _ => rfl⟩

theorem map_find?_proj {β : Type} (fn : Room → Room) (p : Room → Bool) (proj : Room → β)
    (hp : ∀ x, p (fn x) = p x) (hproj : ∀ x, proj (fn x) = proj x) (l : List Room) :
    ((l.map fn).find? p).map proj = (l.find? p).map proj := by
  rw [find?_map_pres fn p hp l]
  cases l.find? p
  · rfl
  · simp [hproj]

/-- Frame conditions of the raw room update over the rooms table: the
projections not assigned by the `UPDATE` are unaffected, and rows other than
the addressed one are identical. -/
theorem updatedRooms_frame (rid : Int) (rent : Option Int) (pfd ptd : Option JSDate)
    (l : List Room) :
    ((l.map (roomUpdateFn rid rent pfd ptd)).find? (fun x => x.id == rid)).map
        (fun r => (r.name, r.createdAt, r.updatedAt)) =
      (l.find? (fun x => x.id == rid)).map (fun r => (r.name, r.createdAt, r.updatedAt)) ∧
    (rent = none →
      ((l.map (roomUpdateFn rid rent pfd ptd)).find? (fun x => x.id == rid)).map
          Room.rentAmount =
        (l.find? (fun x => x.id == rid)).map Room.rentAmount) ∧
    (pfd = none →
      ((l.map (roomUpdateFn rid rent pfd ptd)).find? (fun x => x.id == rid)).map
          Room.periodFrom =
        (l.find? (fun x => x.id == rid)).map Room.periodFrom) ∧
    (ptd = none →
      ((l.map (roomUpdateFn rid rent pfd ptd)).find? (fun x => x.id == rid)).map
          Room.periodTo =
        (l.find? (fun x => x.id == rid)).map Room.periodTo) ∧
    ((l.map (roomUpdateFn rid rent pfd ptd)).filter (fun x => !(x.id == rid)) =
      l.filter (fun x => !(x.id == rid))) := by
  refine ⟨?_, fun h => ?_, fun h => ?_, fun h => ?_, ?_⟩
  · exact map_find?_proj (roomUpdateFn rid rent pfd ptd) (fun x => x.id == rid) _
      (roomUpdateFn_pres_id rid rent pfd ptd)
      (fun x => by
        obtain ⟨e1, e2, e3, -⟩ := roomUpdateFn_frame rid rent pfd ptd x
        simp [e1, e2, e3]) l
  · exact map_find?_proj (roomUpdateFn rid rent pfd ptd) (fun x => x.id == rid)
      Room.rentAmount (roomUpdateFn_pres_id rid rent pfd ptd)
      (fun x => (roomUpdateFn_frame rid rent pfd ptd x).2.2.2.1 h) l
  · exact map_find?_proj (roomUpdateFn rid rent pfd ptd) (fun x => x.id == rid)
      Room.periodFrom (roomUpdateFn_pres_id rid rent pfd ptd)
      (fun x => (roomUpdateFn_frame rid rent pfd ptd x).2.2.2.2.1 h) l
  · exact map_find?_proj (roomUpdateFn rid rent pfd ptd) (fun x => x.id == rid)
      Room.periodTo (roomUpdateFn_pres_id rid rent pfd ptd)
      (fun x => (roomUpdateFn_frame rid rent pfd ptd x).2.2.2.2.2 h) l
  · exact filter_map_fix (roomUpdateFn rid rent pfd ptd) (fun x => x.id == rid)
      (roomUpdateFn_pres_id rid rent pfd ptd) (roomUpdateFn_fix rid rent pfd ptd) l

/-- Claim C5, counterexample — With body `{periodFrom: "2024-01-15"}` (no
`periodTo` supplied), `PATCH /rooms/1` on `store1` rewrites the unsupplied
`periodTo` of room 1 from 2023-12-01 to 2024-12-15, so an unsupplied field
does not always retain its prior value. -/
theorem C5_counterexample :
    body2.periodTo = none ∧
    (store1.rooms.find? (fun x => x.id == 1)).map Room.periodTo = some ⟨2023, 11, 1⟩ ∧
    ((roomPATCH "1" body2 store1).2.rooms.find? (fun x => x.id == 1)).map Room.periodTo
      = some ⟨2024, 11, 15⟩ := by
  decide

/-- Claim C5, amended — For every room update: if the room does not exist the
store is unchanged; in all cases `name`, `createdAt`, `updatedAt` of the
addressed room keep their prior values; an unsupplied `rentAmount` keeps its
prior value; an unsupplied (falsy) `periodFrom` keeps its prior value;
`periodTo` keeps its prior value when BOTH `periodTo` and `periodFrom` are
unsupplied (when only `periodFrom` is supplied, `periodTo` is recomputed —
the deviation shown by the counterexample); rooms other than the addressed
one, and the tenants table, are never written. -/
theorem C5_frame (idStr : String) (rid : Int) (st : Store) (body : RoomPatchBody)
    (hid : parseIntJS idStr = some rid) :
    (st.rooms.find? (fun x => x.id == rid) = none → (roomPATCH idStr body st).2 = st) ∧
    ((roomPATCH idStr body st).2.rooms.find? (fun x => x.id == rid)).map
        (fun r => (r.name, r.createdAt, r.updatedAt)) =
      (st.rooms.find? (fun x => x.id == rid)).map
        (fun r => (r.name, r.createdAt, r.updatedAt)) ∧
    (body.rentAmount = none →
      ((roomPATCH idStr body st).2.rooms.find? (fun x => x.id == rid)).map Room.rentAmount =
        (st.rooms.find? (fun x => x.id == rid)).map Room.rentAmount) ∧
    (truthy body.periodFrom = false →
      ((roomPATCH idStr body st).2.rooms.find? (fun x => x.id == rid)).map Room.periodFrom =
        (st.rooms.find? (fun x => x.id == rid)).map Room.periodFrom) ∧
    (truthy body.periodFrom = false → truthy body.periodTo = false →
      ((roomPATCH idStr body st).2.rooms.find? (fun x => x.id == rid)).map Room.periodTo =
        (st.rooms.find? (fun x => x.id == rid)).map Room.periodTo) ∧
    ((roomPATCH idStr body st).2.rooms.filter (fun x => !(x.id == rid)) =
      st.rooms.filter (fun x => !(x.id == rid))) ∧
    (roomPATCH idStr body st).2.tenants = st.tenants := by
  by_cases h1 : rentBad body.rentAmount = true
  · have hsnd : (roomPATCH idStr body st).2 = st := by
      unfold roomPATCH
      simp [hid, h1]
    refine ⟨fun _ => hsnd, ?_, fun _ => ?_, fun _ => ?_, fun _ _ => ?_, ?_, ?_⟩ <;>
      rw [hsnd]
  rw [Bool.not_eq_true] at h1
  by_cases h2 : (truthy body.periodFrom && (parseDateJS (body.periodFrom.getD "")).isNone)
      = true
  · have hsnd : (roomPATCH idStr body st).2 = st := by
      unfold roomPATCH
      simp [hid, h1, h2]
    refine ⟨fun _ => hsnd, ?_, fun _ => ?_, fun _ => ?_, fun _ _ => ?_, ?_, ?_⟩ <;>
      rw [hsnd]
  rw [Bool.not_eq_true] at h2
  by_cases h3 : (truthy body.periodTo && (parseDateJS (body.periodTo.getD "")).isNone)
      = true
  · have hsnd : (roomPATCH idStr body st).2 = st := by
      unfold roomPATCH
      simp [hid, h1, h2, h3]
    refine ⟨fun _ => hsnd, ?_, fun _ => ?_, fun _ => ?_, fun _ _ => ?_, ?_, ?_⟩ <;>
      rw [hsnd]
  rw [Bool.not_eq_true] at h3
  cases hfind : st.rooms.find? (fun x => x.id == rid) with
  | none =>
    have hsnd : (roomPATCH idStr body st).2 = st := by
      unfold roomPATCH
      simp [hid, h1, h2, h3, hfind]
    refine ⟨fun _ => hsnd, ?_, fun _ => ?_, fun _ => ?_, fun _ _ => ?_, ?_, ?_⟩ <;>
      rw [hsnd] <;> rw [hfind]
  | some r0 =>
    have hsnd : (roomPATCH idStr body st).2 =
        { st with rooms := st.rooms.map (roomUpdateFn rid body.rentAmount
            (if truthy body.periodFrom then parseDateJS (body.periodFrom.getD "") else none)
            (if truthy body.periodTo then parseDateJS (body.periodTo.getD "")
             else if truthy body.periodFrom then
               (parseDateJS (body.periodFrom.getD "")).map (fun x => addMonths x 11)
             else none)) } := by
      unfold roomPATCH
      simp [hid, h1, h2, h3, hfind]
    rw [hsnd]
    dsimp only
    have hfr := updatedRooms_frame rid body.rentAmount
      (if truthy body.periodFrom then parseDateJS (body.periodFrom.getD "") else none)
      (if truthy body.periodTo then parseDateJS (body.periodTo.getD "")
       else if truthy body.periodFrom then
         (parseDateJS (body.periodFrom.getD "")).map (fun x => addMonths x 11)
       else none)
      st.rooms
    rw [hfind] at hfr
    refine ⟨?_, hfr.1, fun h => hfr.2.1 h, fun hpf => hfr.2.2.1 (by rw [hpf]; simp),
      fun hpf hpt => hfr.2.2.2.1 (by rw [hpt, hpf]; simp), hfr.2.2.2.2, rfl⟩
    intro hcon
    exact absurd hcon (by simp [hfind])

/-- Witness for the amended C5 at `PATCH /rooms/1 {rentAmount: 500}` on
`store1`: the supplied `rentAmount` is the only mutated field of room 1. -/
theorem C5_witness :
    parseIntJS "1" = some 1 ∧ truthy body8.periodFrom = false ∧
    ((roomPATCH "1" body8 store1).2.rooms.find? (fun x => x.id == 1)).map Room.periodFrom =
      (store1.rooms.find? (fun x => x.id == 1)).map Room.periodFrom ∧
    ((roomPATCH "1" body8 store1).2.rooms.find? (fun x => x.id == 1)).map
        (fun r => (r.name, r.createdAt, r.updatedAt)) =
      (store1.rooms.find? (fun x => x.id == 1)).map
        (fun r => (r.name, r.createdAt, r.updatedAt)) ∧
    (roomPATCH "1" body8 store1).2.tenants = store1.tenants :=
  ⟨by decide, by decide,
   (C5_frame "1" 1 store1 body8 (by decide)).2.2.2.1 (by decide),
   (C5_frame "1" 1 store1 body8 (by decide)).2.1,
   (C5_frame "1" 1 store1 body8 (by decide)).2.2.2.2.2.2⟩

/-! ## C6 — the two tenant listing orders -/

/-- Claim C6 — The room-scoped listing returns exactly that room's tenants
sorted by name ascending, while the global listing returns all tenants
newest-first by creation time: two distinct ordering contracts. -/
theorem C6_listing_orders (st : Store) (idStr : String) (rid : Int) (l : List Tenant)
    (hid : parseIntJS idStr = some rid)
    (hl : roomTenantsGET idStr st = ListRes.ok l) :
    (l.Perm (st.tenants.filter (fun t => t.roomId == rid)) ∧
     l.Sorted (fun a b => nameKey a ≤ nameKey b)) ∧
    ((tenantsGET st).Perm st.tenants ∧
     (tenantsGET st).Sorted (fun a b => b.createdAt ≤ a.createdAt)) := by
  haveI h1 : IsTotal Tenant (fun a b => nameKey a ≤ nameKey b) :=
    ⟨fun a b => le_total (nameKey a) (nameKey b)⟩
  haveI h2 : IsTrans Tenant (fun a b => nameKey a ≤ nameKey b) :=
    ⟨fun _ _ _ hab hbc => le_trans hab hbc⟩
  haveI h3 : IsTotal Tenant (fun a b => b.createdAt ≤ a.createdAt) :=
    ⟨fun a b => le_total b.createdAt a.createdAt⟩
  haveI h4 : IsTrans Tenant (fun a b => b.createdAt ≤ a.createdAt) :=
    ⟨fun _ _ _ hab hbc => le_trans hbc hab⟩
  have hl2 : (st.tenants.filter (fun t => t.roomId == rid)).insertionSort
      (fun a b => nameKey a ≤ nameKey b) = l := by
    unfold roomTenantsGET at hl
    simp only [hid] at hl
    exact ListRes.ok.inj hl
  refine ⟨⟨?_, ?_⟩, ?_, ?_⟩
  · rw [← hl2]
    exact List.perm_insertionSort _ _
  · rw [← hl2]
    exact List.sorted_insertionSort _ _
  · exact List.perm_insertionSort _ _
  · exact List.sorted_insertionSort _ _

/-- Witness for C6 on `store2` (room 1 owns "Ravi" created at 5 and "Amit"
created at 9): the room listing is name-ordered, the global listing is
newest-first. -/
theorem C6_witness :
    (parseIntJS "1" = some 1 ∧
     roomTenantsGET "1" store2 = ListRes.ok [tenantU, tenantT]) ∧
    ([tenantU, tenantT].Perm (store2.tenants.filter (fun t => t.roomId == 1)) ∧
     List.Sorted (fun a b => nameKey a ≤ nameKey b) [tenantU, tenantT]) ∧
    ((tenantsGET store2).Perm store2.tenants ∧
     (tenantsGET store2).Sorted (fun a b => b.createdAt ≤ a.createdAt)) :=
  ⟨⟨by decide, by decide⟩,
   (C6_listing_orders store2 "1" 1 [tenantU, tenantT] (by decide) (by decide)).1,
   (C6_listing_orders store2 "1" 1 [tenantU, tenantT] (by decide) (by decide)).2⟩

/-! ## C10 — `parseInt` id parsing at the by-id endpoints -/

/-- Claim C10 — Every embedded by-id handler returns its invalid-id error
exactly when JavaScript `parseInt` of the raw id yields `NaN`; an id such as
`"7abc"` is not rejected but processed as id 7. -/
theorem C10_parseInt_ids :
    (∀ (s : String) (st : Store),
      (roomDELETE s st).1 = RoomDeleteRes.invalidId ↔ parseIntJS s = none) ∧
    (∀ (s : String) (st : Store),
      roomTenantsGET s st = ListRes.invalidId ↔ parseIntJS s = none) ∧
    (∀ (s : String) (b : RoomPatchBody) (st : Store),
      (roomPATCH s b st).1 = RoomPatchRes.invalidId ↔ parseIntJS s = none) ∧
    (∀ (s : String) (b : TenantBody) (st : Store) (now : Nat),
      (tenantPATCH s b st now).1 = TenantPatchRes.invalidId ↔ parseIntJS s = none) ∧
    parseIntJS "7abc" = some 7 ∧
    (∀ st : Store, roomTenantsGET "7abc" st = roomTenantsGET "7" st) ∧
    (∀ st : Store, roomDELETE "7abc" st = roomDELETE "7" st) := by
  refine ⟨?_, ?_, ?_, ?_, by decide, ?_, ?_⟩
  · intro s st
    cases h : parseIntJS s with
    | none => simp [roomDELETE, h]
    | some v =>
      simp only [roomDELETE, h]
      rcases hf : st.rooms.find? (fun r => r.id == v) with _ | r
      · simp [hf]
      · simp only [hf]
        split <;> simp
  · intro s st
    cases h : parseIntJS s with
    | none => simp [roomTenantsGET, h]
    | some v => simp [roomTenantsGET, h]
  · intro s b st
    cases h : parseIntJS s with
    | none => simp [roomPATCH, h]
    | some v =>
      simp only [roomPATCH, h]
      split_ifs <;>
        (rcases hf : st.rooms.find? (fun r => r.id == v) with _ | r <;> simp [hf])
  · intro s b st now
    cases h : parseIntJS s with
    | none => simp [tenantPATCH, h]
    | some v =>
      simp only [tenantPATCH, h]
      rcases hm : firstMissing b with _ | f
      · simp only [hm]
        split_ifs <;> try simp
        rcases hf : st.tenants.find? (fun t => t.id == v) with _ | t <;> simp [hf]
      · simp [hm]
  · intro st
    unfold roomTenantsGET
    rw [show parseIntJS "7abc" = some 7 from by decide,
      show parseIntJS "7" = some 7 from by decide]
  · intro st
    unfold roomDELETE
    rw [show parseIntJS "7abc" = some 7 from by decide,
      show parseIntJS "7" = some 7 from by decide]

/-! ## C1 — where tenant-creation validation lives -/

/-- Claim C1, counterexample — A creation request violating the required-field
and format invariants (empty `name`, 3-digit phone, 1-digit Aadhar, 2-digit
pincode) is not rejected by `POST /tenants`: the handler performs no input
check and the violating record is written to the store. -/
theorem C1_counterexample :
    (¬ requiredPresent badBody ∧ ¬ formatsOk badBody) ∧
    tenantsPOST badBody store1 50 =
      (.created (newTenant badBody store1 50),
       { store1 with
         tenants := store1.tenants ++ [newTenant badBody store1 50]
         nextTenantId := store1.nextTenantId + 1 }) ∧
    (tenantsPOST badBody store1 50).2.tenants ≠ store1.tenants := by
  decide

/-- Claim C1, amended — The required-field and format checks for tenant
creation are enforced client-side only: the submission form accepts a record
exactly when all required fields are present and all §4.1 format invariants
hold, while the `POST /tenants` handler itself performs no such validation —
whenever the referenced room exists it writes the body verbatim. -/
theorem C1_validation_located :
    (∀ b : TenantBody,
      clientValidateTenant b = none ↔ (requiredPresent b ∧ formatsOk b)) ∧
    (∀ (b : TenantBody) (st : Store) (now : Nat),
      (st.rooms.find? (fun r => r.id == b.roomId)).isSome = true →
      tenantsPOST b st now =
        (.created (newTenant b st now),
         { st with
           tenants := st.tenants ++ [newTenant b st now]
           nextTenantId := st.nextTenantId + 1 })) := by
  constructor
  · intro b
    unfold clientValidateTenant requiredPresent formatsOk
    split_ifs with h1 h2 h3 h4 h5 <;> simp_all [String.isEmpty_iff]
    tauto
  · intro b st now h
    unfold tenantsPOST
    rw [if_pos h]

/-- Witness for the amended C1: a valid body against an existing room is
written verbatim. -/
theorem C1_witness :
    (store1.rooms.find? (fun r => r.id == goodBody.roomId)).isSome = true ∧
    tenantsPOST goodBody store1 9 =
      (.created (newTenant goodBody store1 9),
       { store1 with
         tenants := store1.tenants ++ [newTenant goodBody store1 9]
         nextTenantId := store1.nextTenantId + 1 }) :=
  ⟨by decide, C1_validation_located.2 goodBody store1 9 (by decide)⟩

end BrothersLodge
